import Mathlib

/-!
Verification of the blackmagic build-session server.

The definitions below are a shallow embedding of `bin/blackmagic.py`
(the session controller `RPCHandler`, its `init`/`build`/configuration
operations and the dependency resolver), of `blackmagic/decorators.py`
(`only_if_initialized`), of `blackmagic/defaults.py` (the default
configuration) and of the `sync_configuration` variant in
`bin/server.py`.  External collaborators (Redis, MongoDB, Django ORM,
the Celery worker, the filesystem and subprocesses) are modelled as an
explicit environment record `Env` passed to each operation; a Python
exception propagating out of a handler is modelled by `Outcome.exn`.
`request.ret` terminates the handler with a final reply;
`request.ret_and_continue` streams an intermediate reply, so a handler
produces a list of reply values.
-/

namespace Blackmagic

/-! ### Status codes (bin/blackmagic.py lines 96-111) -/

def READY : Nat := 10
def NOT_INITIALIZED : Nat := 11
def BUSY : Nat := 12
def LOCKED : Nat := 13
def PREPARE_ENV : Nat := 14
def MARK_ESSENTIAL_PACKAGES_AS_INSTALLED : Nat := 15
def INSTALL_KEYRING_PACKAGE : Nat := 16
def UPDATE_INDICES : Nat := 17
def BUILD_FAILED : Nat := 18
def EMAIL_NOTIFICATIONS : Nat := 19
def EMAIL_NOTIFICATIONS_FAILED : Nat := 20
def OVERLOADED : Nat := 21
def FIRMWARE_WAS_REMOVED : Nat := 21
def NOT_FOUND : Nat := 22
def MAINTENANCE_MODE : Nat := 23
def UNKNOWN_BUID_TYPE : Nat := 24

def DEFAULT_ROOT_PASSWORD : String := "cusdeb"

/-! ### Distro metadata table (bin/blackmagic.py METAS) -/

structure MetaEntry where
  os_name : String
  mirror : String
  keyring_url : String
deriving DecidableEq, Repr

def METAS : List (String × MetaEntry) := [
  ("Raspbian 9 \"Stretch\" (32-bit)",
    ⟨"raspbian-stretch-armhf",
     "http://archive.raspbian.org/raspbian",
     "http://archive.raspbian.org/raspbian/pool/main/r/raspbian-archive-keyring/raspbian-archive-keyring_20120528.2_all.deb"⟩),
  ("Ubuntu 16.04 \"Xenial Xerus\" (32-bit)",
    ⟨"ubuntu-xenial-armhf",
     "http://ports.ubuntu.com/ubuntu-ports/",
     "http://ports.ubuntu.com/ubuntu-ports/pool/main/u/ubuntu-keyring/ubuntu-keyring_2012.05.19_all.deb"⟩),
  ("Ubuntu 18.04 \"Bionic Beaver\" (32-bit)",
    ⟨"ubuntu-bionic-armhf",
     "http://ports.ubuntu.com/ubuntu-ports/",
     "http://ports.ubuntu.com/ubuntu-ports/pool/main/u/ubuntu-keyring/ubuntu-keyring_2018.02.28_all.deb"⟩),
  ("Ubuntu 18.04 \"Bionic Beaver\" (64-bit)",
    ⟨"ubuntu-bionic-arm64",
     "http://ports.ubuntu.com/ubuntu-ports/",
     "http://ports.ubuntu.com/ubuntu-ports/pool/main/u/ubuntu-keyring/ubuntu-keyring_2018.02.28_all.deb"⟩),
  ("Devuan 1 \"Jessie\" (32-bit)",
    ⟨"devuan-jessie-armhf",
     "http://auto.mirror.devuan.org/merged/",
     "http://auto.mirror.devuan.org/merged/pool/DEVUAN/main/d/devuan-keyring/devuan-keyring_2017.10.03_all.deb"⟩),
  ("Debian 10 \"Buster\" (32-bit)",
    ⟨"debian-buster-armhf",
     "http://deb.debian.org/debian/",
     "http://deb.debian.org/debian/pool/main/d/debian-keyring/debian-keyring_2019.02.25_all.deb"⟩)
]

/-- Membership test `distro in METAS.keys()` together with the entry;
`none` corresponds to the `DistroDoesNotExist` branch of `get_os_name`,
`get_keyring_package_name` and `get_mirror_address`. -/
def metasLookup (distro : String) : Option MetaEntry :=
  (METAS.find? (fun p => p.1 = distro)).map (fun p => p.2)

/-- `os.path.basename` on a URL path, as used by
`get_keyring_package_name`. -/
def basename (path : String) : String :=
  (path.splitOn "/").getLastD path

/-- `is_paid` (bin/blackmagic.py lines 142-146). -/
def is_paid (distro device : String) : Bool :=
  if device = "Orange Pi Zero" ∧ distro = "Debian 10 \"Buster\" (32-bit)" then
    false
  else
    true

/-! ### Dependency-resolver output parsing (bin/blackmagic.py resolve)

`self.inst_pattern = re.compile('Inst ([-\\.\\w]+)')` and
`self.inst_pattern.findall(str(data))`.  `\\w` is modelled as an ASCII
alphanumeric character or an underscore. -/

def isInstWordChar (c : Char) : Bool :=
  c = '-' ∨ c = '.' ∨ c = '_' ∨ c.isAlphanum

/-- Splits a character list into its longest prefix of
word-class characters (the greedy match of `[-\\.\\w]+`) and the rest. -/
def wordRun : List Char → List Char × List Char
  | [] => ([], [])
  | c :: cs =>
    if isInstWordChar c then
      let p := wordRun cs
      (c :: p.1, p.2)
    else
      ([], c :: cs)

theorem wordRun_snd_length (l : List Char) : (wordRun l).2.length ≤ l.length := by
  induction l with
  | nil => simp [wordRun]
  | cons c cs ih =>
    simp only [wordRun]
    split
    · simpa using Nat.le_succ_of_le ih
    · simp

/-- `re.findall` for the pattern `Inst ([-\\.\\w]+)`: scan left to
right, at each match emit the captured group and resume scanning right
after the match. -/
def findInst : List Char → List String
  | [] => []
  | c :: cs =>
    if (c :: cs).take 5 = ['I', 'n', 's', 't', ' '] then
      let p := wordRun (cs.drop 4)
      if p.1.isEmpty then
        findInst cs
      else
        p.1.asString :: findInst p.2
    else
      findInst cs
termination_by l => l.length
decreasing_by
  all_goals simp only [List.length_cons]
  all_goals try omega
  all_goals
    have h1 : (wordRun (cs.drop 4)).2.length ≤ (cs.drop 4).length :=
      wordRun_snd_length _
    have h2 : (cs.drop 4).length ≤ cs.length := by
      rw [List.length_drop]; omega
    omega

/-- The reply of `resolve`: `list(set(findall(output)) - set(packages_list))`
(bin/blackmagic.py lines 628-632).  The Python set difference is modelled
as deduplication followed by removal of every requested name. -/
def resolveDeps (data : String) (packages_list : List String) : List String :=
  ((findInst data.data).eraseDups).filter (fun x => decide (x ∉ packages_list))

/-! ### Configuration dictionaries (blackmagic/defaults.py) -/

/-- A Python value stored in the configuration dictionary (the defaults
mix strings and a boolean). -/
inductive PVal where
  | s : String → PVal
  | b : Bool → PVal
deriving DecidableEq, Repr

/-- A Python dictionary with string keys, modelled by its lookup
function (`none` = key absent). -/
def Config : Type := String → Option PVal

/-- `defaults.CONFIGURATION` (blackmagic/defaults.py). -/
def CONFIGURATION : Config := fun k =>
  if k = "host_name" then some (PVal.s "cusdeb")
  else if k = "time_zone" then some (PVal.s "Etc/UTC")
  else if k = "enable_wireless" then some (PVal.b false)
  else if k = "WPA_SSID" then some (PVal.s "cusdeb")
  else if k = "WPA_PSK" then some (PVal.s "")
  else none

/-- The keys of `defaults.CONFIGURATION` — the configuration keys the
spec calls recognized. -/
def CONFIGURATION_KEYS : List String :=
  ["host_name", "time_zone", "enable_wireless", "WPA_SSID", "WPA_PSK"]

/-- Python `cfg.update(m)`: every key of `m` is written into `cfg`
(overwriting or adding), keys absent from `m` are untouched. -/
def dict_update (cfg m : Config) : Config := fun k =>
  match m k with
  | some v => some v
  | none => cfg k

/-- `sync_configuration` of bin/server.py (lines 308-312):
`self.image['configuration'].update(image_configuration_params)`. -/
def sync_configuration_server (cfg m : Config) : Config :=
  dict_update cfg m

/-- `sync_configuration` of bin/blackmagic.py (lines 429-434):
`self.image['configuration'] = image_configuration_params` — wholesale
replacement of the configuration by the caller's map. -/
def sync_configuration_assign (_cfg m : Config) : Config :=
  m

/-! ### Session data model (bin/blackmagic.py RPCHandler) -/

/-- An OS user appended by `add_user`. -/
structure OsUser where
  username : String
  password : String
  uid : String
  gid : String
  comment : String
  homedir : String
  shell : String
deriving DecidableEq, Repr

/-- A Django `User` together with its profile flag, as far as the
handler reads it. -/
structure Account where
  email_notifications : Bool
deriving DecidableEq, Repr

/-- A `Distro` or `TargetDevice` row of the firmwares app. -/
structure CatalogRow where
  full_name : String
  short_name : String
deriving DecidableEq, Repr

/-- `Firmware.DONE` of the firmwares app (the app itself is an external
collaborator; only the fact that `get_built_images` filters on this
status matters here). -/
def FIRMWARE_DONE : Nat := 2

/-- A `Firmware` row as read by `get_built_images`, `delete_firmware`
and `save_firmware_notes`. -/
structure FirmwareRec where
  name : String
  status : Nat
  distro : Option CatalogRow
  targetdevice : Option CatalogRow
  build_type_full : Option String
  started_at : String
  notes : String
deriving DecidableEq, Repr

/-- The MongoDB document `self.db.images.find_one({"_id": name})`
as read back by `get_built_images`. -/
structure ImageDoc where
  selected_packages : List String
  configuration : List (String × PVal)
deriving DecidableEq, Repr

/-- One entry of the list `get_built_images` replies with. -/
structure BuiltImage where
  name : String
  distro : Option String
  targetdevice : Option String
  emulate : Bool
  buildtype : String
  started_at : String
  notes : String
  packages : List String
  configuration : List (String × PVal)
deriving DecidableEq, Repr

/-- The mutable Image Record `self.image`. -/
structure ImageRec where
  id : Option String
  resolver_env : String
  root_password : String
  selected_packages : List String
  users : List OsUser
  configuration : Config
  target : Option (String × String)
  build_type : Option Nat

/-- Per-connection session state (`RPCHandler.__init__`), together with
the two observable effects the claims are about: whether the
resolver-environment directory currently exists on disk, and how many
jobs have been handed to the Celery dispatcher (`build.delay`). -/
structure SessionState where
  build_lock : Bool
  global_lock : Bool
  init_lock : Bool
  paid : Bool
  os : String
  arch : String
  suite : String
  keyring : String
  mirror : String
  collection_name : String
  packages_number : Nat
  image : ImageRec
  resolver_env_exists : Bool
  jobs_submitted : Nat

/-- The session state right after `RPCHandler.__init__`
(bin/blackmagic.py lines 182-211). -/
def freshState : SessionState where
  build_lock := false
  global_lock := true
  init_lock := false
  paid := false
  os := ""
  arch := ""
  suite := ""
  keyring := ""
  mirror := ""
  collection_name := ""
  packages_number := 0
  image := {
    id := none
    resolver_env := ""
    root_password := DEFAULT_ROOT_PASSWORD
    selected_packages := []
    users := []
    configuration := fun _ => none
    target := none
    build_type := none
  }
  resolver_env_exists := false
  jobs_submitted := 0

/-- A value sent over the reply channel by `request.ret` or
`request.ret_and_continue`: a bare status code / number, a string, a
boolean, or one of the list payloads the handlers produce. -/
inductive Value where
  | nat : Nat → Value
  | str : String → Value
  | bool : Bool → Value
  | strList : List String → Value
  | strTable : List (List String) → Value
  | images : List BuiltImage → Value
  | docs : List String → Value
deriving DecidableEq, Repr

/-- How a handler's execution ended: normally (a terminal `ret` was
issued) or with a Python exception propagating out of the handler. -/
inductive Outcome where
  | ok : Outcome
  | exn : Outcome
deriving DecidableEq, Repr

/-- The observable result of running one handler: the streamed replies
in order, how execution ended, and the session state afterwards. -/
structure OpResult where
  replies : List Value
  outcome : Outcome
  state : SessionState

/-- Everything outside the session the handlers read: the request's
arguments and the external collaborators (Redis, MongoDB, the Django
ORM, the filesystem, subprocess exit behaviour, the Celery worker). -/
structure Env where
  /-- `redis_conn.get('maintenance_mode')`, already run through the
  falsy-to-0 normalization of `init`. -/
  maintenance_mode : Nat
  distro_name : String
  target_device_name : String
  build_type_id : Nat
  /-- `str(uuid.uuid4())` for this `init` call. -/
  new_build_id : String
  /-- `options.workspace`. -/
  workspace : String
  /-- `self.collection.find().count()`. -/
  catalog_size : Nat
  /-- `os.makedirs` over the hierarchy succeeds. -/
  makedirs_ok : Bool
  /-- `shutil.copyfile` of the dpkg status file and the sources.list
  write succeed. -/
  copy_ok : Bool
  /-- the `dpkg -x` keyring extraction succeeds. -/
  dpkg_ok : Bool
  /-- the `apt-get update` subprocess succeeds. -/
  aptupd_ok : Bool
  /-- the Django `objects.get` lookups of user/distro/device succeed. -/
  django_ok : Bool
  /-- `firmware.set_build_type(build_type_id)` does not raise
  `UnknownBuildTypeId`. -/
  build_type_known : Bool
  /-- `firmware.save()` and the MongoDB `replace_one` succeed. -/
  db_ok : Bool
  /-- `redis_conn.get('builds_number')`, falsy-normalized to 0. -/
  builds_number : Nat
  /-- `options.max_builds_number`. -/
  max_builds_number : Nat
  /-- The Celery worker's result for this build: the return code of
  `result.get()`, or an exception raised while retrieving it. -/
  worker : Except Unit Int
  packages_list : List String
  /-- stdout of the `apt-get install --no-act` simulation. -/
  apt_output : String
  config_params : Config
  new_user : OsUser
  new_password : String
  /-- The authenticated Django user, `none` when falsy. -/
  user : Option Account
  /-- The firmwares of the authenticated user, in `-started_at` order. -/
  firmwares : List FirmwareRec
  /-- `self.db.images.find_one({"_id": name})`. -/
  images_db : String → Option ImageDoc
  fw_name : String
  notes : String
  target_devices : List CatalogRow
  /-- class-level `base_packages_list`, keyed by os name. -/
  base_packages : String → List String
  /-- class-level `users_list`, keyed by os name. -/
  users_list : String → List (List String)
  /-- the documents of `self.collection` in cursor order. -/
  collection_docs : List String
  page_number : Int
  per_page : Nat
  query : String
  /-- the documents matched by the `text` search command. -/
  search_results : List String

/-! ### Operations (bin/blackmagic.py handlers) -/

/-- `_remove_resolver_env` (lines 238-241): `if os.path.isdir(...):
shutil.rmtree(...)`. -/
def removeResolverEnv (s : SessionState) : SessionState :=
  if s.resolver_env_exists then { s with resolver_env_exists := false } else s

/-- `init` lines 265-274: derive the target descriptors from the
`METAS` entry and record the catalog size. -/
def initMeta (env : Env) (m : MetaEntry) (s : SessionState) : SessionState :=
  { s with
    paid := is_paid env.distro_name env.target_device_name
    os := m.os_name
    arch := (m.os_name.splitOn "-").getD 2 ""
    suite := (m.os_name.splitOn "-").getD 1 ""
    keyring := basename m.keyring_url
    mirror := m.mirror
    collection_name := m.os_name
    packages_number := env.catalog_size }

/-- `init` lines 276-277: tear down a previous resolver environment. -/
def initTeardown (s : SessionState) : SessionState :=
  if s.image.resolver_env ≠ "" then removeResolverEnv s else s

/-- `init` lines 279-288: allot the new build id, resolver-env path,
target descriptor and build type in the Image Record. -/
def initAllocate (env : Env) (s : SessionState) : SessionState :=
  { s with image := { s.image with
    id := some env.new_build_id
    resolver_env := env.workspace ++ "/" ++ env.new_build_id
    target := some (env.distro_name, env.target_device_name)
    build_type := some env.build_type_id } }

/-- The session state reached by `init` once the hierarchy of the new
resolver environment exists on disk (lines 298-306 succeeded). -/
def initPrepared (env : Env) (m : MetaEntry) (s : SessionState) : SessionState :=
  { initAllocate env (initTeardown (initMeta env m { s with init_lock := true }))
    with resolver_env_exists := true }

/-- The staged part of `init` (lines 290-365), entered with the
`METAS` entry of the requested distro: create the resolver hierarchy,
seed its package database, install the keyring, refresh the indices,
create the Firmware row, then release the locks and reply.  The
external stages are controlled by the `*_ok` flags of `env`; a `false`
flag makes the corresponding stage raise, propagating out of the
handler with the state it had reached. -/
def initStages (env : Env) (m : MetaEntry) (s : SessionState) : OpResult :=
  if ¬ env.makedirs_ok then
    ⟨[Value.nat PREPARE_ENV], .exn,
      initAllocate env (initTeardown (initMeta env m { s with init_lock := true }))⟩
  else if ¬ env.copy_ok then
    ⟨[Value.nat PREPARE_ENV,
      Value.nat MARK_ESSENTIAL_PACKAGES_AS_INSTALLED], .exn, initPrepared env m s⟩
  else if ¬ env.dpkg_ok then
    ⟨[Value.nat PREPARE_ENV, Value.nat MARK_ESSENTIAL_PACKAGES_AS_INSTALLED,
      Value.nat INSTALL_KEYRING_PACKAGE], .exn, initPrepared env m s⟩
  else if ¬ env.aptupd_ok then
    ⟨[Value.nat PREPARE_ENV, Value.nat MARK_ESSENTIAL_PACKAGES_AS_INSTALLED,
      Value.nat INSTALL_KEYRING_PACKAGE, Value.nat UPDATE_INDICES], .exn,
      initPrepared env m s⟩
  else if ¬ env.django_ok then
    ⟨[Value.nat PREPARE_ENV, Value.nat MARK_ESSENTIAL_PACKAGES_AS_INSTALLED,
      Value.nat INSTALL_KEYRING_PACKAGE, Value.nat UPDATE_INDICES], .exn,
      initPrepared env m s⟩
  else if ¬ env.build_type_known then
    ⟨[Value.nat PREPARE_ENV, Value.nat MARK_ESSENTIAL_PACKAGES_AS_INSTALLED,
      Value.nat INSTALL_KEYRING_PACKAGE, Value.nat UPDATE_INDICES,
      Value.nat UNKNOWN_BUID_TYPE], .ok, initPrepared env m s⟩
  else if ¬ env.db_ok then
    ⟨[Value.nat PREPARE_ENV, Value.nat MARK_ESSENTIAL_PACKAGES_AS_INSTALLED,
      Value.nat INSTALL_KEYRING_PACKAGE, Value.nat UPDATE_INDICES], .exn,
      initPrepared env m s⟩
  else
    ⟨[Value.nat PREPARE_ENV, Value.nat MARK_ESSENTIAL_PACKAGES_AS_INSTALLED,
      Value.nat INSTALL_KEYRING_PACKAGE, Value.nat UPDATE_INDICES,
      Value.str env.new_build_id, Value.nat READY], .ok,
      { initPrepared env m s with init_lock := false, global_lock := false }⟩

/-- `init` (lines 246-365): the maintenance-mode and lock guards
(lines 248-263), the `METAS` lookup raising `DistroDoesNotExist` for an
unknown distro (line 266, after `init_lock` was set), then the staged
sequence. -/
def initOp (env : Env) (s : SessionState) : OpResult :=
  if env.maintenance_mode ≠ 0 then ⟨[Value.nat MAINTENANCE_MODE], .ok, s⟩
  else if s.init_lock then ⟨[Value.nat LOCKED], .ok, s⟩
  else if s.build_lock then ⟨[Value.nat BUSY], .ok, s⟩
  else
    match metasLookup env.distro_name with
    | none => ⟨[], .exn, { s with init_lock := true }⟩
    | some m => initStages env m s

/-- The point at which `build` (lines 367-404) suspends: either the
handler already terminated (the `build_lock` was held and the trailing
`request.ret(LOCKED)` ran), or the job has been handed to the
dispatcher and the handler is polling for its completion. -/
inductive Phase1 where
  | finished : List Value → Outcome → SessionState → Phase1
  | submitted : List Value → SessionState → Phase1

/-- The synchronous head of `build`, up to the suspension of the
completion-polling loop: take the build lock, read the admission
counter (streaming `OVERLOADED` when at or above the maximum — the code
then falls through), and submit the job via `build.delay`. -/
def buildPhase1 (env : Env) (s : SessionState) : Phase1 :=
  if ¬ s.build_lock then
    let s1 := { s with build_lock := true }
    let r1 := if env.builds_number ≥ env.max_builds_number then
        [Value.nat OVERLOADED]
      else
        []
    let s2 := { s1 with jobs_submitted := s1.jobs_submitted + 1 }
    .submitted r1 s2
  else
    .finished [Value.nat LOCKED] .ok s

/-- The tail of `build`, after the worker result is ready: release the
build lock, remove the resolver environment, then map the worker result
to `READY`/`BUILD_FAILED` (an exception from `result.get()` is caught
and also yields `BUILD_FAILED`). -/
def buildPhase2 (worker : Except Unit Int) (s : SessionState) : OpResult :=
  let s1 := removeResolverEnv { s with build_lock := false }
  match worker with
  | .error _ => ⟨[Value.nat BUILD_FAILED], .ok, s1⟩
  | .ok code =>
    if code = 0 then ⟨[Value.nat READY], .ok, s1⟩
    else ⟨[Value.nat BUILD_FAILED], .ok, s1⟩

/-- The whole `build` handler body (without the `only_if_initialized`
guard, which the dispatcher applies). -/
def buildOp (env : Env) (s : SessionState) : OpResult :=
  match buildPhase1 env s with
  | .finished r o s1 => ⟨r, o, s1⟩
  | .submitted r s1 =>
    let res := buildPhase2 env.worker s1
    ⟨r ++ res.replies, res.outcome, res.state⟩

/-- The session state during the completion-polling window of a
`build` that started from `s`: the build lock held and one more job
handed to the dispatcher. -/
def pollingState (s : SessionState) : SessionState :=
  { s with build_lock := true, jobs_submitted := s.jobs_submitted + 1 }

/-- `add_user` (lines 406-420). -/
def addUserOp (env : Env) (s : SessionState) : OpResult :=
  let s1 := { s with image :=
    { s.image with users := s.image.users ++ [env.new_user] } }
  ⟨[Value.nat READY], .ok, s1⟩

/-- `change_root_password` (lines 422-427). -/
def changeRootPasswordOp (env : Env) (s : SessionState) : OpResult :=
  let s1 := { s with image := { s.image with root_password := env.new_password } }
  ⟨[Value.nat READY], .ok, s1⟩

/-- `sync_configuration` of bin/blackmagic.py (lines 429-434). -/
def syncConfigurationOp (env : Env) (s : SessionState) : OpResult :=
  let s1 := { s with image := { s.image with
    configuration := sync_configuration_assign s.image.configuration env.config_params } }
  ⟨[Value.nat READY], .ok, s1⟩

/-- `get_email_notifications` (lines 436-443). -/
def getEmailNotificationsOp (env : Env) (s : SessionState) : OpResult :=
  match env.user with
  | some u => ⟨[Value.bool u.email_notifications], .ok, s⟩
  | none => ⟨[Value.nat EMAIL_NOTIFICATIONS_FAILED], .ok, s⟩

/-- `enable_email_notifications` (lines 445-454). -/
def enableEmailNotificationsOp (env : Env) (s : SessionState) : OpResult :=
  match env.user with
  | some _ => ⟨[Value.nat EMAIL_NOTIFICATIONS], .ok, s⟩
  | none => ⟨[Value.nat EMAIL_NOTIFICATIONS_FAILED], .ok, s⟩

/-- `disable_email_notifications` (lines 456-465). -/
def disableEmailNotificationsOp (env : Env) (s : SessionState) : OpResult :=
  match env.user with
  | some _ => ⟨[Value.nat EMAIL_NOTIFICATIONS], .ok, s⟩
  | none => ⟨[Value.nat EMAIL_NOTIFICATIONS_FAILED], .ok, s⟩

/-- `get_base_packages_list` (lines 467-470). -/
def getBasePackagesListOp (env : Env) (s : SessionState) : OpResult :=
  ⟨[Value.strList (env.base_packages s.os)], .ok, s⟩

/-- The per-firmware body of the `get_built_images` loop (lines
480-503).  `firmware.targetdevice.short_name` (line 490) is read
unconditionally, so a `None` target device — and a `None` distro when
the device is an rpi-3-b — raises and propagates; the same happens when
the MongoDB image document is missing (subscripting `None`). -/
def builtImageOf (env : Env) (f : FirmwareRec) : Except Unit BuiltImage := do
  let distroName := f.distro.map (fun d => d.full_name)
  let deviceName := f.targetdevice.map (fun d => d.full_name)
  let td ← match f.targetdevice with
    | some td => Except.ok td
    | none => Except.error ()
  let emulate ← if td.short_name = "rpi-3-b" then
      match f.distro with
      | some d => Except.ok (d.short_name == "ubuntu-bionic-arm64")
      | none => Except.error ()
    else
      Except.ok false
  let buildtype := match f.build_type_full with
    | none => "Classic image"
    | some bt => bt
  let doc ← match env.images_db f.name with
    | some doc => Except.ok doc
    | none => Except.error ()
  Except.ok ⟨f.name, distroName, deviceName, emulate, buildtype,
    f.started_at, f.notes, doc.selected_packages, doc.configuration⟩

/-- `get_built_images` (lines 472-505): filter the user's firmwares on
`Firmware.DONE` and summarize each. -/
def getBuiltImagesOp (env : Env) (s : SessionState) : OpResult :=
  let done := env.firmwares.filter (fun f => f.status = FIRMWARE_DONE)
  match done.mapM (builtImageOf env) with
  | .ok imgs => ⟨[Value.images imgs], .ok, s⟩
  | .error _ => ⟨[], .exn, s⟩

/-- `delete_firmware` (lines 507-524); the file removal itself is
logged-and-swallowed and does not change the reply. -/
def deleteFirmwareOp (env : Env) (s : SessionState) : OpResult :=
  let found := env.firmwares.filter (fun f => f.name = env.fw_name)
  if ¬ found.isEmpty then ⟨[Value.nat FIRMWARE_WAS_REMOVED], .ok, s⟩
  else ⟨[Value.nat NOT_FOUND], .ok, s⟩

/-- `save_firmware_notes` (lines 526-536). -/
def saveFirmwareNotesOp (env : Env) (s : SessionState) : OpResult :=
  let found := env.firmwares.filter (fun f => f.name = env.fw_name)
  if ¬ found.isEmpty then ⟨[Value.nat READY], .ok, s⟩
  else ⟨[Value.nat NOT_FOUND], .ok, s⟩

/-- `get_packages_list` (lines 538-554). -/
def getPackagesListOp (env : Env) (s : SessionState) : OpResult :=
  let start : Int := if env.page_number > 0 then
      (env.page_number - 1) * (env.per_page : Int)
    else
      0
  ⟨[Value.docs ((env.collection_docs.drop start.toNat).take env.per_page)], .ok, s⟩

/-- `get_default_root_password` (lines 556-559). -/
def getDefaultRootPasswordOp (_env : Env) (s : SessionState) : OpResult :=
  ⟨[Value.str DEFAULT_ROOT_PASSWORD], .ok, s⟩

/-- `get_shells_list` (lines 561-564). -/
def getShellsListOp (_env : Env) (s : SessionState) : OpResult :=
  ⟨[Value.strList ["/bin/sh", "/bin/dash", "/bin/bash", "/bin/rbash"]], .ok, s⟩

/-- `get_target_devices_list` (lines 566-569). -/
def getTargetDevicesListOp (env : Env) (s : SessionState) : OpResult :=
  ⟨[Value.strList (env.target_devices.map (fun d => d.full_name))], .ok, s⟩

/-- `get_packages_number` (lines 571-574). -/
def getPackagesNumberOp (_env : Env) (s : SessionState) : OpResult :=
  ⟨[Value.nat s.packages_number], .ok, s⟩

/-- `get_users_list` (lines 576-579). -/
def getUsersListOp (env : Env) (s : SessionState) : OpResult :=
  ⟨[Value.strTable (env.users_list s.os)], .ok, s⟩

/-- `search` (lines 581-593). -/
def searchOp (env : Env) (s : SessionState) : OpResult :=
  if env.query ≠ "" then ⟨[Value.docs env.search_results], .ok, s⟩
  else ⟨[Value.docs []], .ok, s⟩

/-- `resolve` (lines 595-632): store the selection, run the apt
simulation, reply with the parsed installs minus the requested names. -/
def resolveOp (env : Env) (s : SessionState) : OpResult :=
  let s1 := { s with image :=
    { s.image with selected_packages := env.packages_list } }
  ⟨[Value.strList (resolveDeps env.apt_output env.packages_list)], .ok, s1⟩

/-! ### Dispatch -/

/-- The RPC operations exposed by `RPCHandler`. -/
inductive Op where
  | init | build | add_user | change_root_password | sync_configuration
  | get_email_notifications | enable_email_notifications
  | disable_email_notifications | get_base_packages_list
  | get_built_images | delete_firmware | save_firmware_notes
  | get_packages_list | get_default_root_password | get_shells_list
  | get_target_devices_list | get_packages_number | get_users_list
  | search | resolve
deriving DecidableEq, Repr

/-- Which operations carry the `only_if_initialized` decorator in
bin/blackmagic.py.  `init`, `get_built_images`, `delete_firmware`,
`save_firmware_notes` and `get_target_devices_list` do not. -/
def guarded : Op → Bool
  | .init => false
  | .get_built_images => false
  | .delete_firmware => false
  | .save_firmware_notes => false
  | .get_target_devices_list => false
  | _ => true

/-- The undecorated handler body of each operation. -/
def rawOp : Op → Env → SessionState → OpResult
  | .init => initOp
  | .build => buildOp
  | .add_user => addUserOp
  | .change_root_password => changeRootPasswordOp
  | .sync_configuration => syncConfigurationOp
  | .get_email_notifications => getEmailNotificationsOp
  | .enable_email_notifications => enableEmailNotificationsOp
  | .disable_email_notifications => disableEmailNotificationsOp
  | .get_base_packages_list => getBasePackagesListOp
  | .get_built_images => getBuiltImagesOp
  | .delete_firmware => deleteFirmwareOp
  | .save_firmware_notes => saveFirmwareNotesOp
  | .get_packages_list => getPackagesListOp
  | .get_default_root_password => getDefaultRootPasswordOp
  | .get_shells_list => getShellsListOp
  | .get_target_devices_list => getTargetDevicesListOp
  | .get_packages_number => getPackagesNumberOp
  | .get_users_list => getUsersListOp
  | .search => searchOp
  | .resolve => resolveOp

/-- `only_if_initialized` (blackmagic/decorators.py lines 6-21 and
bin/blackmagic.py lines 149-164): run the body only when
`global_lock` is cleared, else reply `NOT_INITIALIZED` without touching
anything. -/
def only_if_initialized (body : Env → SessionState → OpResult)
    (env : Env) (s : SessionState) : OpResult :=
  if ¬ s.global_lock then body env s
  else ⟨[Value.nat NOT_INITIALIZED], .ok, s⟩

/-- One RPC call: the handler body, wrapped in `only_if_initialized`
exactly when the source decorates it. -/
def callOp (op : Op) (env : Env) (s : SessionState) : OpResult :=
  if guarded op then only_if_initialized (rawOp op) env s
  else rawOp op env s

/-- The session state after a sequence of calls. -/
def runOps (calls : List (Op × Env)) (s : SessionState) : SessionState :=
  calls.foldl (fun st c => (callOp c.1 c.2 st).state) s

/-! ### Concrete scenario data -/

/-- A firmware row in the DONE state with no linked distro/device. -/
def fw1 : FirmwareRec where
  name := "img-1"
  status := FIRMWARE_DONE
  distro := none
  targetdevice := none
  build_type_full := none
  started_at := "Mon Jan 1 00:00:00 2020"
  notes := ""

/-- A benign environment: no maintenance mode, a known distro, all
external stages succeeding, an idle admission counter and a worker that
returns 0. -/
def env0 : Env where
  maintenance_mode := 0
  distro_name := "Debian 10 \"Buster\" (32-bit)"
  target_device_name := "Raspberry Pi 3 Model B"
  build_type_id := 1
  new_build_id := "b1"
  workspace := "/var/blackmagic/workspace"
  catalog_size := 5
  makedirs_ok := true
  copy_ok := true
  dpkg_ok := true
  aptupd_ok := true
  django_ok := true
  build_type_known := true
  db_ok := true
  builds_number := 0
  max_builds_number := 8
  worker := Except.ok 0
  packages_list := ["nginx"]
  apt_output := "Inst libc6 (2.28 Debian:10 [armhf])\nInst nginx (1.14 [armhf])"
  config_params := fun _ => none
  new_user := ⟨"alice", "pw", "1000", "1000", "", "/home/alice", "/bin/bash"⟩
  new_password := "secret"
  user := some ⟨true⟩
  firmwares := []
  images_db := fun _ => none
  fw_name := "img-1"
  notes := ""
  target_devices := []
  base_packages := fun _ => []
  users_list := fun _ => []
  collection_docs := []
  page_number := 1
  per_page := 10
  query := ""
  search_results := []

/-- An environment whose distro name is not a key of `METAS`. -/
def envBadDistro : Env := { env0 with distro_name := "Unknown Distro 1.0" }

/-- An environment whose admission counter is at the configured
maximum. -/
def envOver : Env := { env0 with builds_number := 8 }

/-- The session right after a successful `init` from a fresh state. -/
def readyState : SessionState := (callOp Op.init env0 freshState).state

/-- A session in the middle of its very first `init` (after line 263
has set `init_lock`; every suspension point of that first `init` has
this lock configuration, since `global_lock` is cleared only at line
361). -/
def midInitState : SessionState := { freshState with init_lock := true }

/-- An initialized session with a build in progress. -/
def buildingState : SessionState := { readyState with build_lock := true }

/-! ### Helper lemmas -/

theorem initMeta_global (env : Env) (m : MetaEntry) (s : SessionState) :
    (initMeta env m s).global_lock = s.global_lock := rfl

theorem initTeardown_global (s : SessionState) :
    (initTeardown s).global_lock = s.global_lock := by
  unfold initTeardown removeResolverEnv
  split_ifs <;> rfl

theorem initAllocate_global (env : Env) (s : SessionState) :
    (initAllocate env s).global_lock = s.global_lock := rfl

theorem initPrepared_global (env : Env) (m : MetaEntry) (s : SessionState) :
    (initPrepared env m s).global_lock = s.global_lock := by
  unfold initPrepared
  show (initAllocate env (initTeardown (initMeta env m { s with init_lock := true }))).global_lock
    = s.global_lock
  rw [initAllocate_global, initTeardown_global, initMeta_global]

theorem initStages_keeps_global (env : Env) (m : MetaEntry) (s : SessionState)
    (h : s.global_lock = false) : (initStages env m s).state.global_lock = false := by
  unfold initStages
  split_ifs <;>
    first
      | rfl
      | (show (initPrepared env m s).global_lock = false
         rw [initPrepared_global]; exact h)

theorem initOp_keeps_global (env : Env) (s : SessionState)
    (h : s.global_lock = false) : (initOp env s).state.global_lock = false := by
  unfold initOp
  split_ifs <;> try exact h
  rcases metasLookup env.distro_name with _ | m
  · exact h
  · exact initStages_keeps_global env m s h

theorem buildPhase2_keeps_global (w : Except Unit Int) (s : SessionState)
    (h : s.global_lock = false) : (buildPhase2 w s).state.global_lock = false := by
  unfold buildPhase2 removeResolverEnv
  repeat' split
  all_goals simp_all

theorem buildOp_keeps_global (env : Env) (s : SessionState)
    (h : s.global_lock = false) : (buildOp env s).state.global_lock = false := by
  by_cases hb : s.build_lock
  · simp [buildOp, buildPhase1, hb, h]
  · have hsub : buildPhase1 env s = Phase1.submitted
        (if env.builds_number ≥ env.max_builds_number then [Value.nat OVERLOADED] else [])
        { s with build_lock := true, jobs_submitted := s.jobs_submitted + 1 } := by
      simp [buildPhase1, hb]
    simp only [buildOp, hsub]
    exact buildPhase2_keeps_global env.worker _ h

theorem rawOp_keeps_global (op : Op) (env : Env) (s : SessionState)
    (h : s.global_lock = false) : (rawOp op env s).state.global_lock = false := by
  cases op
  case init => exact initOp_keeps_global env s h
  case build => exact buildOp_keeps_global env s h
  all_goals
    simp only [rawOp, addUserOp, changeRootPasswordOp, syncConfigurationOp,
      getEmailNotificationsOp, enableEmailNotificationsOp,
      disableEmailNotificationsOp, getBasePackagesListOp, getBuiltImagesOp,
      deleteFirmwareOp, saveFirmwareNotesOp, getPackagesListOp,
      getDefaultRootPasswordOp, getShellsListOp, getTargetDevicesListOp,
      getPackagesNumberOp, getUsersListOp, searchOp, resolveOp]
    repeat' split
    all_goals simp_all

theorem callOp_unlocked_eq (op : Op) (env : Env) (s : SessionState)
    (h : s.global_lock = false) : callOp op env s = rawOp op env s := by
  unfold callOp only_if_initialized
  split <;> simp [h]

theorem callOp_keeps_global (op : Op) (env : Env) (s : SessionState)
    (h : s.global_lock = false) : (callOp op env s).state.global_lock = false := by
  rw [callOp_unlocked_eq op env s h]
  exact rawOp_keeps_global op env s h

/-! ### Claims -/

/-- C1: for every list of requested package names, the list `resolve`
replies with is disjoint from the requested names — on any initialized
session the reply is exactly the parsed installation set minus the
requested set, which never contains a requested name. -/
theorem resolve_reply_disjoint (env : Env) (s : SessionState) :
    (callOp Op.resolve env { s with global_lock := false }).replies
      = [Value.strList (resolveDeps env.apt_output env.packages_list)]
    ∧ List.Disjoint (resolveDeps env.apt_output env.packages_list)
        env.packages_list := by
  constructor
  · simp [callOp, guarded, only_if_initialized, rawOp, resolveOp]
  · intro a ha hb
    have := List.of_mem_filter ha
    exact absurd hb (of_decide_eq_true this)

/-- C2 (amended): every operation that carries the
`only_if_initialized` decorator replies `NOT_INITIALIZED` before a
successful `init` and leaves the session state untouched; the
undecorated operations (`get_built_images`, `get_target_devices_list`,
`delete_firmware`, `save_firmware_notes`) are not so protected. -/
theorem guarded_op_not_initialized (op : Op) (env : Env) (s : SessionState)
    (hg : guarded op = true) (hl : s.global_lock = true) :
    callOp op env s = ⟨[Value.nat NOT_INITIALIZED], .ok, s⟩ := by
  simp [callOp, hg, only_if_initialized, hl]

/-- Witness for C2: `resolve` called on a fresh session replies
`NOT_INITIALIZED` and changes nothing. -/
theorem guarded_op_not_initialized_witness :
    callOp Op.resolve env0 freshState
      = ⟨[Value.nat NOT_INITIALIZED], .ok, freshState⟩ :=
  guarded_op_not_initialized Op.resolve env0 freshState (by decide) (by decide)

/-- C2 counterexample: `get_built_images` called on a fresh
(uninitialized) session does not reply `NOT_INITIALIZED` — its body
runs and replies the list of built images. -/
theorem get_built_images_before_init_runs :
    (callOp Op.get_built_images env0 freshState).replies = [Value.images []]
    ∧ Value.images [] ≠ Value.nat NOT_INITIALIZED
    ∧ guarded Op.get_built_images = false := by
  refine ⟨rfl, by decide, rfl⟩

/-- C3 (amended): while the very first `init` is mid-sequence the
session is still uninitialized, so a concurrent `build` replies
`NOT_INITIALIZED` (not `BUSY`) and submits no job; `BUSY` is instead
the reply of `init` when called while a build is running. -/
theorem build_during_init_amended (env : Env) (s : SessionState) :
    (s.global_lock = true →
      callOp Op.build env s = ⟨[Value.nat NOT_INITIALIZED], .ok, s⟩)
    ∧ (env.maintenance_mode = 0 → s.init_lock = false → s.build_lock = true →
      callOp Op.init env s = ⟨[Value.nat BUSY], .ok, s⟩) := by
  constructor
  · intro hl
    simp [callOp, guarded, only_if_initialized, hl]
  · intro hm hi hb
    simp [callOp, guarded, rawOp, initOp, hm, hi, hb]

/-- Witness for C3: on a session whose first `init` is mid-sequence,
`build` replies `NOT_INITIALIZED` and the dispatcher-job counter is
unchanged; on an initialized session with a running build, `init`
replies `BUSY`. -/
theorem build_during_init_amended_witness :
    callOp Op.build env0 midInitState
      = ⟨[Value.nat NOT_INITIALIZED], .ok, midInitState⟩
    ∧ callOp Op.init env0 buildingState
      = ⟨[Value.nat BUSY], .ok, buildingState⟩ :=
  ⟨(build_during_init_amended env0 midInitState).1 (by decide),
   (build_during_init_amended env0 buildingState).2 rfl (by decide) (by decide)⟩

/-- C3 counterexample: with the first `init` mid-sequence (the
initializing lock held, the global lock not yet cleared), `build` does
not reply `BUSY` — it replies `NOT_INITIALIZED`; and while a re-`init`
of an already-initialized session is mid-sequence, `build` is not
rejected at all but submits a job to the dispatcher. -/
theorem build_during_init_not_busy :
    (callOp Op.build env0 midInitState).replies = [Value.nat NOT_INITIALIZED]
    ∧ (callOp Op.build env0 midInitState).state.jobs_submitted
        = midInitState.jobs_submitted
    ∧ [Value.nat NOT_INITIALIZED] ≠ [Value.nat BUSY]
    ∧ (callOp Op.build env0 { readyState with init_lock := true }).state.jobs_submitted
        = readyState.jobs_submitted + 1 := by
  refine ⟨by decide, by decide, by decide, by decide⟩

/-- C4: a `build` on an initialized, build-idle session hands exactly
one job to the dispatcher and holds the build lock while polling; a
second `build` arriving in that window replies `LOCKED`, submits
nothing and changes no state, so exactly one job in total is submitted
for the in-flight build. -/
theorem second_build_locked (env1 env2 : Env) (s : SessionState)
    (hg : s.global_lock = false) (hb : s.build_lock = false) :
    buildPhase1 env1 s = Phase1.submitted
      (if env1.builds_number ≥ env1.max_builds_number then [Value.nat OVERLOADED] else [])
      (pollingState s)
    ∧ callOp Op.build env2 (pollingState s)
      = ⟨[Value.nat LOCKED], .ok, pollingState s⟩ := by
  constructor
  · simp [buildPhase1, hb, pollingState]
  · simp [callOp, guarded, only_if_initialized, rawOp, hg, buildOp, buildPhase1,
      pollingState]

/-- Witness for C4: from the freshly initialized session, the first
`build` submits one job, and a second `build` in its polling window
replies `LOCKED` with the job counter still at one. -/
theorem second_build_locked_witness :
    buildPhase1 env0 readyState
      = Phase1.submitted
          (if env0.builds_number ≥ env0.max_builds_number then [Value.nat OVERLOADED] else [])
          (pollingState readyState)
    ∧ callOp Op.build env0 (pollingState readyState)
      = ⟨[Value.nat LOCKED], .ok, pollingState readyState⟩ :=
  second_build_locked env0 env0 readyState (by decide) (by decide)

/-- C5: `init` on a fresh session with an unsupported distro name sets
the initializing lock at line 263 and then raises `DistroDoesNotExist`
at line 266 with no try/finally, so the lock is never released (the
session stays uninitialized) and every later `init` is rejected with
`LOCKED` — contradicting the documented requirement that failures
release the initializing lock. -/
theorem init_unknown_distro_wedges_session :
    (initOp envBadDistro freshState).outcome = Outcome.exn
    ∧ (initOp envBadDistro freshState).state.init_lock = true
    ∧ (initOp envBadDistro freshState).state.global_lock = true
    ∧ (callOp Op.init env0 (initOp envBadDistro freshState).state).replies
        = [Value.nat LOCKED] := by
  refine ⟨by decide, by decide, by decide, by decide⟩

/-- C6: a completed `build` on an initialized, build-idle session
always leaves the resolver-environment directory removed, whatever the
worker result (`READY`, `BUILD_FAILED`, or an exception from
`result.get()`) and whether or not `OVERLOADED` was streamed. -/
theorem build_removes_resolver_env (env : Env) (s : SessionState)
    (hg : s.global_lock = false) (hb : s.build_lock = false) :
    (callOp Op.build env s).state.resolver_env_exists = false := by
  simp only [callOp, guarded, only_if_initialized, hg, rawOp, buildOp,
    buildPhase1, hb, Bool.false_eq_true, not_false_eq_true, if_true, ite_true,
    if_false, ite_false, reduceIte]
  rcases env.worker with _ | code <;>
    simp [buildPhase2, removeResolverEnv] <;>
    split_ifs <;>
    simp_all

/-- Witness for C6: a build on the freshly initialized session (whose
resolver environment exists on disk) leaves the directory removed. -/
theorem build_removes_resolver_env_witness :
    readyState.resolver_env_exists = true
    ∧ (callOp Op.build env0 readyState).state.resolver_env_exists = false :=
  ⟨by decide, build_removes_resolver_env env0 readyState (by decide) (by decide)⟩

/-- C7 (amended): in bin/server.py, `sync_configuration` merges every
key present in the caller's map — recognized or not — into the
configuration, and keys absent from the map keep their prior values;
in bin/blackmagic.py it instead replaces the whole configuration by
the caller's map. -/
theorem sync_configuration_amended (cfg m : Config) (k : String) :
    (m k = none → sync_configuration_server cfg m k = cfg k)
    ∧ (∀ v, m k = some v → sync_configuration_server cfg m k = some v)
    ∧ sync_configuration_assign cfg m k = m k := by
  refine ⟨fun h => ?_, fun v h => ?_, rfl⟩ <;>
    simp [sync_configuration_server, dict_update, h]

/-- Witness for C7: updating `host_name` alone through the
bin/server.py merge leaves `time_zone` at its prior (default) value. -/
theorem sync_configuration_amended_witness :
    sync_configuration_server CONFIGURATION
      (fun k => if k = "host_name" then some (PVal.s "x") else none) "time_zone"
      = CONFIGURATION "time_zone" :=
  (sync_configuration_amended CONFIGURATION
    (fun k => if k = "host_name" then some (PVal.s "x") else none) "time_zone").1 rfl

/-- C7 counterexample: the claim fails on both implementations — the
bin/server.py merge writes the unrecognized key `frobnicate` into the
configuration (not only recognized keys change), and the
bin/blackmagic.py assignment drops `time_zone` entirely when the map
names only `host_name` (a key not named in the map does not retain its
prior value). -/
theorem sync_configuration_counterexample :
    sync_configuration_server CONFIGURATION
      (fun k => if k = "frobnicate" then some (PVal.s "1") else none) "frobnicate"
      = some (PVal.s "1")
    ∧ CONFIGURATION "frobnicate" = none
    ∧ "frobnicate" ∉ CONFIGURATION_KEYS
    ∧ sync_configuration_assign CONFIGURATION
        (fun k => if k = "host_name" then some (PVal.s "x") else none) "time_zone"
      = none
    ∧ CONFIGURATION "time_zone" = some (PVal.s "Etc/UTC") := by
  refine ⟨rfl, rfl, by decide, rfl, rfl⟩

/-- C8 (amended): when the global in-flight build counter is at or
above the configured maximum, `build` streams `OVERLOADED` as an
intermediate reply but does not stop: the job is still submitted to
the dispatcher. -/
theorem overloaded_still_submits (env : Env) (s : SessionState)
    (hg : s.global_lock = false) (hb : s.build_lock = false)
    (hover : env.builds_number ≥ env.max_builds_number) :
    (callOp Op.build env s).replies.head? = some (Value.nat OVERLOADED)
    ∧ (callOp Op.build env s).state.jobs_submitted = s.jobs_submitted + 1 := by
  simp only [callOp, guarded, only_if_initialized, hg, rawOp, buildOp,
    buildPhase1, hb, Bool.false_eq_true, not_false_eq_true, if_true, ite_true,
    if_false, ite_false, reduceIte, ge_iff_le, hover]
  rcases env.worker with _ | code <;>
    simp [buildPhase2, removeResolverEnv, hover] <;>
    split_ifs <;>
    simp_all

/-- Witness for C8: with the counter at the maximum (8), `build` on
the initialized session streams `OVERLOADED` first and the dispatcher
job counter still increments. -/
theorem overloaded_still_submits_witness :
    (callOp Op.build envOver readyState).replies.head? = some (Value.nat OVERLOADED)
    ∧ (callOp Op.build envOver readyState).state.jobs_submitted
        = readyState.jobs_submitted + 1 :=
  overloaded_still_submits envOver readyState (by decide) (by decide) (by decide)

/-- C8 counterexample: at the admission limit the claim's "no job is
submitted" fails — the job counter increments and the build proceeds
to completion (here `READY`) after the `OVERLOADED` intermediate
reply. -/
theorem overloaded_counterexample :
    (callOp Op.build envOver readyState).replies
      = [Value.nat OVERLOADED, Value.nat READY]
    ∧ (callOp Op.build envOver readyState).state.jobs_submitted
        = readyState.jobs_submitted + 1 := by
  refine ⟨by decide, by decide⟩

/-- C9: once a session is initialized (`global_lock` cleared by the
first successful `init`), no operation — any single call, including a
succeeding or failing re-`init`, or any sequence of calls — ever sets
`global_lock` again, and the `only_if_initialized` guard never
intercepts a call (so the session can never again reply
`NOT_INITIALIZED`). -/
theorem initialized_stays_initialized (s : SessionState)
    (h : s.global_lock = false) :
    (∀ (op : Op) (env : Env),
      (callOp op env s).state.global_lock = false
      ∧ callOp op env s = rawOp op env s)
    ∧ ∀ calls : List (Op × Env), (runOps calls s).global_lock = false := by
  constructor
  · exact fun op env =>
      ⟨callOp_keeps_global op env s h, callOp_unlocked_eq op env s h⟩
  · intro calls
    induction calls generalizing s with
    | nil => exact h
    | cons c rest ih =>
      exact ih (callOp c.1 c.2 s).state (callOp_keeps_global c.1 c.2 s h)

/-- Witness for C9: after the first successful `init`, a failing
re-`init` (unknown distro), a further `init` and a `build` leave the
session initialized. -/
theorem initialized_stays_initialized_witness :
    (runOps [(Op.init, envBadDistro), (Op.init, env0), (Op.build, env0)]
      readyState).global_lock = false :=
  (initialized_stays_initialized readyState (by decide)).2
    [(Op.init, envBadDistro), (Op.init, env0), (Op.build, env0)]

/-- C10: the status-code vocabulary is not injective — `OVERLOADED`
and `FIRMWARE_WAS_REMOVED` are both 21, so the value a successful
`delete_firmware` replies with is the very value `build` streams on
admission-control rejection. -/
theorem overloaded_equals_firmware_was_removed :
    OVERLOADED = FIRMWARE_WAS_REMOVED
    ∧ FIRMWARE_WAS_REMOVED = 21
    ∧ (deleteFirmwareOp { env0 with firmwares := [fw1] } freshState).replies
        = [Value.nat OVERLOADED] := by
  refine ⟨rfl, rfl, by decide⟩

end Blackmagic
